import Mathlib

/-
Verification of the derived-metrics computation of the repository:
the function analyze_code_metrics in
src/EX4-AgentOrchestrationService/challenge/solutions/ex4-ch1-solution.py.

The function receives a Python dict of repository data and returns either
a sentinel error dict or a dict of classified metrics.  We embed the
relevant fragment of Python shallowly:

  * a dict value is either a string or an integer (PyVal);
  * a dict is an association list with first-match lookup (RepoDict);
  * the argument repo_data is an Option RepoDict, none standing for None;
  * Python's truthiness test on a dict is emptiness, so the guard
    "if not repo_data" fires for none and for the empty dict;
  * a TypeError raised by an order comparison between a str and an int
    is an Except.error; normal returns are Except.ok.
-/

set_option autoImplicit false

namespace CodeMetrics

/-- A Python value that may appear in a repository descriptor: the source
only ever treats these values as strings or integers. -/
inductive PyVal where
  | str : String → PyVal
  | int : Int → PyVal
deriving DecidableEq, Repr

/-- Python str() as used by the f-string on line 118 of the source. -/
def pyStr : PyVal → String
  | PyVal.str s => s
  | PyVal.int n => toString n

/-- A Python dict from string keys to values, as an association list. -/
abbrev RepoDict : Type := List (String × PyVal)

/-- First-match association lookup; Python dict keys are unique, so for
dicts this is exactly dict indexing. -/
def lookup : RepoDict → String → Option PyVal
  | [], _ => none
  | (k, v) :: rest, key => if k = key then some v else lookup rest key

/-- Python dict.get with a default, as on lines 86-90 of the source. -/
def getD (d : RepoDict) (k : String) (dflt : PyVal) : PyVal :=
  (lookup d k).getD dflt

/-- Using a PyVal in an order comparison against an int: a str raises
TypeError in Python 3, an int is used as is. -/
def asInt : PyVal → Except String Int
  | PyVal.int n => Except.ok n
  | PyVal.str _ => Except.error "TypeError: str and int are not comparable"

/-- Python str.lower(), as used on line 118 of the source; it only ever
acts on the ASCII classification strings, where lowering is per-character
ASCII lowering. -/
def pyLower (s : String) : String := String.mk (s.data.map Char.toLower)

/-- Lines 93-98 of the source: classify size_kb. -/
def classifySize (size_kb : Int) : String :=
  if size_kb < 1000 then "Small"
  else if size_kb < 10000 then "Medium"
  else "Large"

/-- Lines 100-105 of the source: classify stars. -/
def classifyPopularity (stars : Int) : String :=
  if stars < 100 then "Low"
  else if stars < 1000 then "Medium"
  else "High"

/-- Line 107 of the source: classify issues. -/
def classifyActivity (issues : Int) : String :=
  if issues > 10 then "Active"
  else if issues > 0 then "Moderate"
  else "Low"

/-- The dict returned on lines 109-119 of the source. -/
structure MetricsSummary where
  main_language : PyVal
  project_size : String
  popularity_level : String
  activity_level : String
  repository_size_kb : Int
  stars : Int
  forks : PyVal
  open_issues : Int
  complexity_summary : String
deriving DecidableEq, Repr

/-- A normal return of analyze_code_metrics: either the sentinel error
dict of line 83 or the metrics dict of lines 109-119. -/
inductive MetricsResult where
  | err : String → MetricsResult
  | summary : MetricsSummary → MetricsResult
deriving DecidableEq, Repr

/-- Builds the returned dict of lines 109-119 from the extracted values,
including the f-string of line 118. -/
def buildSummary (language : PyVal) (size_kb stars : Int) (forks : PyVal)
    (issues : Int) : MetricsSummary :=
  { main_language := language
    project_size := classifySize size_kb
    popularity_level := classifyPopularity stars
    activity_level := classifyActivity issues
    repository_size_kb := size_kb
    stars := stars
    forks := forks
    open_issues := issues
    complexity_summary :=
      classifySize size_kb ++ " " ++ pyStr language ++ " project with "
        ++ pyLower (classifyPopularity stars) ++ " popularity" }

/-- Lines 86-119 of the source, the part after the falsiness guard.
The values are extracted with dict.get (lines 86-90); the first order
comparison over a str value raises, in source order: size (line 93),
stars (line 100), issues (line 107).  forks is never compared, only
passed through. -/
def analyzeCore (d : RepoDict) : Except String MetricsResult :=
  match asInt (getD d "size" (PyVal.int 0)) with
  | Except.error e => Except.error e
  | Except.ok size_kb =>
    match asInt (getD d "stargazers_count" (PyVal.int 0)) with
    | Except.error e => Except.error e
    | Except.ok stars =>
      match asInt (getD d "open_issues_count" (PyVal.int 0)) with
      | Except.error e => Except.error e
      | Except.ok issues =>
        Except.ok (MetricsResult.summary
          (buildSummary (getD d "language" (PyVal.str "Unknown"))
            size_kb stars (getD d "forks_count" (PyVal.int 0)) issues))

/-- Lines 71-119 of the source.  "if not repo_data" (line 82) is true
exactly when repo_data is None or an empty dict. -/
def analyze_code_metrics (repo_data : Option RepoDict) :
    Except String MetricsResult :=
  match repo_data with
  | none => Except.ok (MetricsResult.err "No repository data provided")
  | some d =>
    match d with
    | [] => Except.ok (MetricsResult.err "No repository data provided")
    | _ :: _ => analyzeCore d

/-- The keys the source reads from the descriptor (lines 86-90). -/
def consumedKeys : List String :=
  ["language", "size", "stargazers_count", "forks_count", "open_issues_count"]

/-- Structural validity of a descriptor as described by the data model:
language, if present, is a string. -/
def isOptStr : Option PyVal → Bool
  | none => true
  | some (PyVal.str _) => true
  | some (PyVal.int _) => false

/-- Structural validity of a descriptor as described by the data model:
a numeric field, if present, is a non-negative integer. -/
def isOptNonnegInt : Option PyVal → Bool
  | none => true
  | some (PyVal.int n) => decide (0 ≤ n)
  | some (PyVal.str _) => false

/-- A structurally valid (well-formed) descriptor: language absent or a
string, each numeric field absent or a non-negative integer. -/
def WellFormed (d : RepoDict) : Prop :=
  isOptStr (lookup d "language") = true
  ∧ isOptNonnegInt (lookup d "size") = true
  ∧ isOptNonnegInt (lookup d "stargazers_count") = true
  ∧ isOptNonnegInt (lookup d "forks_count") = true
  ∧ isOptNonnegInt (lookup d "open_issues_count") = true

/-- The example descriptor of the spec: a medium-sized Python project. -/
def exampleDescriptor : RepoDict :=
  [("language", PyVal.str "Python"), ("size", PyVal.int 5000),
   ("stargazers_count", PyVal.int 500), ("forks_count", PyVal.int 10),
   ("open_issues_count", PyVal.int 3)]

/-- The metrics computed for exampleDescriptor. -/
def exampleSummary : MetricsSummary :=
  { main_language := PyVal.str "Python"
    project_size := "Medium"
    popularity_level := "Medium"
    activity_level := "Moderate"
    repository_size_kb := 5000
    stars := 500
    forks := PyVal.int 10
    open_issues := 3
    complexity_summary := "Medium Python project with medium popularity" }

/-- The summary produced when every consumed key is absent. -/
def defaultSummary : MetricsSummary :=
  { main_language := PyVal.str "Unknown"
    project_size := "Small"
    popularity_level := "Low"
    activity_level := "Low"
    repository_size_kb := 0
    stars := 0
    forks := PyVal.int 0
    open_issues := 0
    complexity_summary := "Small Unknown project with low popularity" }

theorem analyze_spec_example :
    analyze_code_metrics (some exampleDescriptor)
      = Except.ok (MetricsResult.summary exampleSummary) := rfl

theorem analyze_ne_nil (d : RepoDict) (hd : d ≠ []) :
    analyze_code_metrics (some d) = analyzeCore d := by
  cases d with
  | nil => exact absurd rfl hd
  | cons p rest => rfl

theorem analyzeCore_shape (d : RepoDict) :
    (∃ e, analyzeCore d = Except.error e)
    ∨ ∃ s, analyzeCore d = Except.ok (MetricsResult.summary s) := by
  unfold analyzeCore
  split
  · exact Or.inl ⟨_, rfl⟩
  · split
    · exact Or.inl ⟨_, rfl⟩
    · split
      · exact Or.inl ⟨_, rfl⟩
      · exact Or.inr ⟨_, rfl⟩

theorem analyzeCore_ne_err (d : RepoDict) (m : String) :
    analyzeCore d ≠ Except.ok (MetricsResult.err m) := by
  rcases analyzeCore_shape d with ⟨e, he⟩ | ⟨s, hs⟩
  · rw [he]; simp
  · rw [hs]; simp

theorem analyzeCore_ok (d : RepoDict) (a b c : Int)
    (ha : asInt (getD d "size" (PyVal.int 0)) = Except.ok a)
    (hb : asInt (getD d "stargazers_count" (PyVal.int 0)) = Except.ok b)
    (hc : asInt (getD d "open_issues_count" (PyVal.int 0)) = Except.ok c) :
    analyzeCore d = Except.ok (MetricsResult.summary
      (buildSummary (getD d "language" (PyVal.str "Unknown")) a b
        (getD d "forks_count" (PyVal.int 0)) c)) := by
  unfold analyzeCore
  rw [ha, hb, hc]

theorem analyzeCore_summary_inv (d : RepoDict) (s : MetricsSummary)
    (h : analyzeCore d = Except.ok (MetricsResult.summary s)) :
    asInt (getD d "size" (PyVal.int 0)) = Except.ok s.repository_size_kb
    ∧ asInt (getD d "stargazers_count" (PyVal.int 0)) = Except.ok s.stars
    ∧ asInt (getD d "open_issues_count" (PyVal.int 0))
        = Except.ok s.open_issues
    ∧ s.main_language = getD d "language" (PyVal.str "Unknown")
    ∧ s.forks = getD d "forks_count" (PyVal.int 0)
    ∧ s.project_size = classifySize s.repository_size_kb
    ∧ s.popularity_level = classifyPopularity s.stars
    ∧ s.activity_level = classifyActivity s.open_issues
    ∧ s.complexity_summary = s.project_size ++ " " ++ pyStr s.main_language
        ++ " project with " ++ pyLower s.popularity_level ++ " popularity" := by
  unfold analyzeCore at h
  split at h
  · exact absurd h (by simp)
  next a ha =>
    split at h
    · exact absurd h (by simp)
    next b hb =>
      split at h
      · exact absurd h (by simp)
      next c hc =>
        have hs : buildSummary (getD d "language" (PyVal.str "Unknown")) a b
            (getD d "forks_count" (PyVal.int 0)) c = s := by
          injection h with h1
          injection h1
        subst hs
        exact ⟨ha, hb, hc, rfl, rfl, rfl, rfl, rfl, rfl⟩

theorem analyze_summary_inv (d : RepoDict) (s : MetricsSummary)
    (h : analyze_code_metrics (some d)
      = Except.ok (MetricsResult.summary s)) :
    d ≠ []
    ∧ asInt (getD d "size" (PyVal.int 0)) = Except.ok s.repository_size_kb
    ∧ asInt (getD d "stargazers_count" (PyVal.int 0)) = Except.ok s.stars
    ∧ asInt (getD d "open_issues_count" (PyVal.int 0))
        = Except.ok s.open_issues
    ∧ s.main_language = getD d "language" (PyVal.str "Unknown")
    ∧ s.forks = getD d "forks_count" (PyVal.int 0)
    ∧ s.project_size = classifySize s.repository_size_kb
    ∧ s.popularity_level = classifyPopularity s.stars
    ∧ s.activity_level = classifyActivity s.open_issues
    ∧ s.complexity_summary = s.project_size ++ " " ++ pyStr s.main_language
        ++ " project with " ++ pyLower s.popularity_level ++ " popularity" := by
  cases d with
  | nil => exact absurd h (by simp [analyze_code_metrics])
  | cons p rest => exact ⟨by simp, analyzeCore_summary_inv _ _ h⟩

theorem classifySize_small (n : Int) : classifySize n = "Small" ↔ n < 1000 := by
  unfold classifySize
  by_cases h1 : n < 1000
  · rw [if_pos h1]; exact iff_of_true rfl h1
  · rw [if_neg h1]
    by_cases h2 : n < 10000
    · rw [if_pos h2]; exact iff_of_false (by decide) h1
    · rw [if_neg h2]; exact iff_of_false (by decide) h1

theorem classifySize_medium (n : Int) :
    classifySize n = "Medium" ↔ 1000 ≤ n ∧ n < 10000 := by
  unfold classifySize
  by_cases h1 : n < 1000
  · rw [if_pos h1]; exact iff_of_false (by decide) (by omega)
  · rw [if_neg h1]
    by_cases h2 : n < 10000
    · rw [if_pos h2]; exact iff_of_true rfl (by omega)
    · rw [if_neg h2]; exact iff_of_false (by decide) (by omega)

theorem classifySize_large (n : Int) :
    classifySize n = "Large" ↔ 10000 ≤ n := by
  unfold classifySize
  by_cases h1 : n < 1000
  · rw [if_pos h1]; exact iff_of_false (by decide) (by omega)
  · rw [if_neg h1]
    by_cases h2 : n < 10000
    · rw [if_pos h2]; exact iff_of_false (by decide) (by omega)
    · rw [if_neg h2]; exact iff_of_true rfl (by omega)

theorem classifyPopularity_low (n : Int) :
    classifyPopularity n = "Low" ↔ n < 100 := by
  unfold classifyPopularity
  by_cases h1 : n < 100
  · rw [if_pos h1]; exact iff_of_true rfl h1
  · rw [if_neg h1]
    by_cases h2 : n < 1000
    · rw [if_pos h2]; exact iff_of_false (by decide) h1
    · rw [if_neg h2]; exact iff_of_false (by decide) h1

theorem classifyPopularity_medium (n : Int) :
    classifyPopularity n = "Medium" ↔ 100 ≤ n ∧ n < 1000 := by
  unfold classifyPopularity
  by_cases h1 : n < 100
  · rw [if_pos h1]; exact iff_of_false (by decide) (by omega)
  · rw [if_neg h1]
    by_cases h2 : n < 1000
    · rw [if_pos h2]; exact iff_of_true rfl (by omega)
    · rw [if_neg h2]; exact iff_of_false (by decide) (by omega)

theorem classifyPopularity_high (n : Int) :
    classifyPopularity n = "High" ↔ 1000 ≤ n := by
  unfold classifyPopularity
  by_cases h1 : n < 100
  · rw [if_pos h1]; exact iff_of_false (by decide) (by omega)
  · rw [if_neg h1]
    by_cases h2 : n < 1000
    · rw [if_pos h2]; exact iff_of_false (by decide) (by omega)
    · rw [if_neg h2]; exact iff_of_true rfl (by omega)

theorem classifyActivity_active (n : Int) :
    classifyActivity n = "Active" ↔ 10 < n := by
  unfold classifyActivity
  by_cases h1 : n > 10
  · rw [if_pos h1]; exact iff_of_true rfl h1
  · rw [if_neg h1]
    by_cases h2 : n > 0
    · rw [if_pos h2]; exact iff_of_false (by decide) h1
    · rw [if_neg h2]; exact iff_of_false (by decide) h1

theorem classifyActivity_moderate (n : Int) :
    classifyActivity n = "Moderate" ↔ 0 < n ∧ n ≤ 10 := by
  unfold classifyActivity
  by_cases h1 : n > 10
  · rw [if_pos h1]; exact iff_of_false (by decide) (by omega)
  · rw [if_neg h1]
    by_cases h2 : n > 0
    · rw [if_pos h2]; exact iff_of_true rfl (by omega)
    · rw [if_neg h2]; exact iff_of_false (by decide) (by omega)

theorem classifyActivity_low (n : Int) :
    classifyActivity n = "Low" ↔ n ≤ 0 := by
  unfold classifyActivity
  by_cases h1 : n > 10
  · rw [if_pos h1]; exact iff_of_false (by decide) (by omega)
  · rw [if_neg h1]
    by_cases h2 : n > 0
    · rw [if_pos h2]; exact iff_of_false (by decide) (by omega)
    · rw [if_neg h2]; exact iff_of_true rfl (by omega)

theorem asInt_getD_of_optInt (d : RepoDict) (k : String)
    (h : isOptNonnegInt (lookup d k) = true) :
    ∃ n, asInt (getD d k (PyVal.int 0)) = Except.ok n := by
  unfold getD
  cases hl : lookup d k with
  | none => exact ⟨0, rfl⟩
  | some v =>
    cases v with
    | int n => exact ⟨n, rfl⟩
    | str t => rw [hl] at h; exact absurd h (by simp [isOptNonnegInt])

theorem analyzeCore_congr (d1 d2 : RepoDict)
    (h : ∀ k ∈ consumedKeys, lookup d1 k = lookup d2 k) :
    analyzeCore d1 = analyzeCore d2 := by
  have hl := h "language" (by decide)
  have hs := h "size" (by decide)
  have hg := h "stargazers_count" (by decide)
  have hf := h "forks_count" (by decide)
  have hi := h "open_issues_count" (by decide)
  unfold analyzeCore getD
  rw [hl, hs, hg, hf, hi]

/-- C1, counterexample: on the empty dict the function returns the error
sentinel, not the defaults summary: Python's falsiness guard on line 82
fires for the empty dict as well as for None. -/
theorem c1_empty_dict_counterexample :
    analyze_code_metrics (some [])
      = Except.ok (MetricsResult.err "No repository data provided")
    ∧ analyze_code_metrics (some [])
      ≠ Except.ok (MetricsResult.summary defaultSummary) := by
  refine ⟨rfl, fun h => ?_⟩
  simp [analyze_code_metrics] at h

/-- C1, amended: for every non-empty descriptor that contains none of the
consumed keys, analyze_code_metrics returns the full defaults summary
(main_language "Unknown", project_size "Small", popularity_level "Low",
activity_level "Low", complexity_summary "Small Unknown project with low
popularity"); the empty dict itself is falsy and yields the error
sentinel. -/
theorem c1_defaults_without_consumed_keys (d : RepoDict) (hd : d ≠ [])
    (h : ∀ k ∈ consumedKeys, lookup d k = none) :
    analyze_code_metrics (some d)
      = Except.ok (MetricsResult.summary defaultSummary) := by
  have hl := h "language" (by decide)
  have hs := h "size" (by decide)
  have hg := h "stargazers_count" (by decide)
  have hf := h "forks_count" (by decide)
  have hi := h "open_issues_count" (by decide)
  rw [analyze_ne_nil d hd]
  unfold analyzeCore getD
  rw [hl, hs, hg, hf, hi]
  rfl

/-- Witness for the amended C1 at the concrete one-entry descriptor whose
single key is not consumed. -/
theorem c1_defaults_without_consumed_keys_witness :
    analyze_code_metrics (some [("description", PyVal.str "misc")])
      = Except.ok (MetricsResult.summary defaultSummary) :=
  c1_defaults_without_consumed_keys [("description", PyVal.str "misc")]
    (by decide) (by decide)

/-- C2: analyze_code_metrics returns the sentinel error object exactly on
the falsy inputs None and the empty dict, and the sentinel message is the
only error object it ever returns. -/
theorem c2_error_sentinel_iff (repo_data : Option RepoDict) :
    (analyze_code_metrics repo_data
        = Except.ok (MetricsResult.err "No repository data provided")
      ↔ repo_data = none ∨ repo_data = some [])
    ∧ ∀ m, analyze_code_metrics repo_data = Except.ok (MetricsResult.err m)
        → m = "No repository data provided" := by
  cases repo_data with
  | none =>
    refine ⟨by simp [analyze_code_metrics], fun m hm => ?_⟩
    have h1 : MetricsResult.err "No repository data provided"
        = MetricsResult.err m := by
      exact Except.ok.inj hm
    exact (MetricsResult.err.inj h1).symm
  | some d =>
    cases d with
    | nil =>
      refine ⟨by simp [analyze_code_metrics], fun m hm => ?_⟩
      have h1 : MetricsResult.err "No repository data provided"
          = MetricsResult.err m := by
        exact Except.ok.inj hm
      exact (MetricsResult.err.inj h1).symm
    | cons p rest =>
      constructor
      · constructor
        · intro h
          exact absurd h (analyzeCore_ne_err (p :: rest) _)
        · intro h
          rcases h with h | h <;> exact absurd h (by simp)
      · intro m hm
        exact absurd hm (analyzeCore_ne_err (p :: rest) m)

/-- Witness for C2 at the concrete input None. -/
theorem c2_error_sentinel_witness :
    analyze_code_metrics none
      = Except.ok (MetricsResult.err "No repository data provided") :=
  (c2_error_sentinel_iff none).1.mpr (Or.inl rfl)

/-- C3: whenever analyze_code_metrics returns a metrics summary, its
project_size is Small exactly when the extracted size is below 1000,
Medium exactly when it is in 1000..9999, and Large exactly when it is at
least 10000; repository_size_kb carries that extracted size. -/
theorem c3_project_size_thresholds (d : RepoDict) (s : MetricsSummary)
    (h : analyze_code_metrics (some d)
      = Except.ok (MetricsResult.summary s)) :
    asInt (getD d "size" (PyVal.int 0)) = Except.ok s.repository_size_kb
    ∧ (s.project_size = "Small" ↔ s.repository_size_kb < 1000)
    ∧ (s.project_size = "Medium"
        ↔ 1000 ≤ s.repository_size_kb ∧ s.repository_size_kb < 10000)
    ∧ (s.project_size = "Large" ↔ 10000 ≤ s.repository_size_kb) := by
  obtain ⟨-, ha, -, -, -, -, hps, -, -, -⟩ := analyze_summary_inv d s h
  rw [hps]
  exact ⟨ha, classifySize_small _, classifySize_medium _, classifySize_large _⟩

/-- Witness for C3 at the spec's example descriptor. -/
theorem c3_project_size_thresholds_witness :
    asInt (getD exampleDescriptor "size" (PyVal.int 0))
      = Except.ok exampleSummary.repository_size_kb
    ∧ (exampleSummary.project_size = "Small"
        ↔ exampleSummary.repository_size_kb < 1000)
    ∧ (exampleSummary.project_size = "Medium"
        ↔ 1000 ≤ exampleSummary.repository_size_kb
          ∧ exampleSummary.repository_size_kb < 10000)
    ∧ (exampleSummary.project_size = "Large"
        ↔ 10000 ≤ exampleSummary.repository_size_kb) :=
  c3_project_size_thresholds exampleDescriptor exampleSummary rfl

/-- C4: whenever analyze_code_metrics returns a metrics summary, its
popularity_level is Low exactly when the extracted star count is below
100, Medium exactly when it is in 100..999, and High exactly when it is
at least 1000; stars carries that extracted count. -/
theorem c4_popularity_thresholds (d : RepoDict) (s : MetricsSummary)
    (h : analyze_code_metrics (some d)
      = Except.ok (MetricsResult.summary s)) :
    asInt (getD d "stargazers_count" (PyVal.int 0)) = Except.ok s.stars
    ∧ (s.popularity_level = "Low" ↔ s.stars < 100)
    ∧ (s.popularity_level = "Medium" ↔ 100 ≤ s.stars ∧ s.stars < 1000)
    ∧ (s.popularity_level = "High" ↔ 1000 ≤ s.stars) := by
  obtain ⟨-, -, hb, -, -, -, -, hpop, -, -⟩ := analyze_summary_inv d s h
  rw [hpop]
  exact ⟨hb, classifyPopularity_low _, classifyPopularity_medium _,
    classifyPopularity_high _⟩

/-- Witness for C4 at the spec's example descriptor. -/
theorem c4_popularity_thresholds_witness :
    asInt (getD exampleDescriptor "stargazers_count" (PyVal.int 0))
      = Except.ok exampleSummary.stars
    ∧ (exampleSummary.popularity_level = "Low" ↔ exampleSummary.stars < 100)
    ∧ (exampleSummary.popularity_level = "Medium"
        ↔ 100 ≤ exampleSummary.stars ∧ exampleSummary.stars < 1000)
    ∧ (exampleSummary.popularity_level = "High"
        ↔ 1000 ≤ exampleSummary.stars) :=
  c4_popularity_thresholds exampleDescriptor exampleSummary rfl

/-- C5, counterexample: the descriptor whose open_issues_count is -1 is
not falsy, and the function classifies its activity_level as Low even
though its open_issues_count is not 0, because line 107 of the source
sends every non-positive count to Low. -/
theorem c5_activity_low_counterexample :
    analyze_code_metrics (some [("open_issues_count", PyVal.int (-1))])
      = Except.ok (MetricsResult.summary
        { main_language := PyVal.str "Unknown"
          project_size := "Small"
          popularity_level := "Low"
          activity_level := "Low"
          repository_size_kb := 0
          stars := 0
          forks := PyVal.int 0
          open_issues := -1
          complexity_summary := "Small Unknown project with low popularity" })
    ∧ (-1 : Int) ≠ 0 :=
  ⟨rfl, by decide⟩

/-- C5, amended: whenever analyze_code_metrics returns a metrics summary,
its activity_level is Active exactly when the extracted issue count
exceeds 10, Moderate exactly when it is in 1..10, and Low exactly when it
is at most 0 (so exactly when it equals 0 on the spec's non-negative
descriptors); open_issues carries that extracted count. -/
theorem c5_activity_thresholds (d : RepoDict) (s : MetricsSummary)
    (h : analyze_code_metrics (some d)
      = Except.ok (MetricsResult.summary s)) :
    asInt (getD d "open_issues_count" (PyVal.int 0))
      = Except.ok s.open_issues
    ∧ (s.activity_level = "Active" ↔ 10 < s.open_issues)
    ∧ (s.activity_level = "Moderate"
        ↔ 0 < s.open_issues ∧ s.open_issues ≤ 10)
    ∧ (s.activity_level = "Low" ↔ s.open_issues ≤ 0) := by
  obtain ⟨-, -, -, hc, -, -, -, -, hact, -⟩ := analyze_summary_inv d s h
  rw [hact]
  exact ⟨hc, classifyActivity_active _, classifyActivity_moderate _,
    classifyActivity_low _⟩

/-- Witness for the amended C5 at the spec's example descriptor. -/
theorem c5_activity_thresholds_witness :
    asInt (getD exampleDescriptor "open_issues_count" (PyVal.int 0))
      = Except.ok exampleSummary.open_issues
    ∧ (exampleSummary.activity_level = "Active"
        ↔ 10 < exampleSummary.open_issues)
    ∧ (exampleSummary.activity_level = "Moderate"
        ↔ 0 < exampleSummary.open_issues ∧ exampleSummary.open_issues ≤ 10)
    ∧ (exampleSummary.activity_level = "Low"
        ↔ exampleSummary.open_issues ≤ 0) :=
  c5_activity_thresholds exampleDescriptor exampleSummary rfl

/-- C6: whenever analyze_code_metrics returns a metrics summary, its
complexity_summary is exactly the project_size, a space, the
main_language, the words "project with", the lower-cased
popularity_level, and the word "popularity". -/
theorem c6_complexity_summary_format (d : RepoDict) (s : MetricsSummary)
    (h : analyze_code_metrics (some d)
      = Except.ok (MetricsResult.summary s)) :
    s.complexity_summary = s.project_size ++ " " ++ pyStr s.main_language
      ++ " project with " ++ pyLower s.popularity_level ++ " popularity" := by
  obtain ⟨-, -, -, -, -, -, -, -, -, hcs⟩ := analyze_summary_inv d s h
  exact hcs

/-- Witness for C6 at the spec's example descriptor. -/
theorem c6_complexity_summary_format_witness :
    exampleSummary.complexity_summary
      = exampleSummary.project_size ++ " "
        ++ pyStr exampleSummary.main_language ++ " project with "
        ++ pyLower exampleSummary.popularity_level ++ " popularity" :=
  c6_complexity_summary_format exampleDescriptor exampleSummary rfl

/-- C7: the function reads only the five consumed keys, so any two
non-falsy descriptors agreeing on them get the same result; and in every
returned summary, main_language is the language value (defaulting to
"Unknown"), forks is the forks_count value (defaulting to 0), and
repository_size_kb, stars and open_issues are the extracted size,
stargazers_count and open_issues_count values (each defaulting to 0). -/
theorem c7_reads_only_consumed_keys (d1 d2 : RepoDict)
    (h1 : d1 ≠ []) (h2 : d2 ≠ [])
    (hagree : ∀ k ∈ consumedKeys, lookup d1 k = lookup d2 k) :
    analyze_code_metrics (some d1) = analyze_code_metrics (some d2)
    ∧ ∀ s, analyze_code_metrics (some d1)
        = Except.ok (MetricsResult.summary s)
      → s.main_language = getD d1 "language" (PyVal.str "Unknown")
        ∧ s.forks = getD d1 "forks_count" (PyVal.int 0)
        ∧ asInt (getD d1 "size" (PyVal.int 0))
            = Except.ok s.repository_size_kb
        ∧ asInt (getD d1 "stargazers_count" (PyVal.int 0))
            = Except.ok s.stars
        ∧ asInt (getD d1 "open_issues_count" (PyVal.int 0))
            = Except.ok s.open_issues := by
  constructor
  · rw [analyze_ne_nil d1 h1, analyze_ne_nil d2 h2]
    exact analyzeCore_congr d1 d2 hagree
  · intro s hs
    obtain ⟨-, ha, hb, hc, hml, hfk, -, -, -, -⟩ :=
      analyze_summary_inv d1 s hs
    exact ⟨hml, hfk, ha, hb, hc⟩

/-- Witness for C7: two concrete descriptors that differ only in keys the
function does not consume get the same result, and the pass-through
fields of the example descriptor are its input values. -/
theorem c7_reads_only_consumed_keys_witness :
    (analyze_code_metrics (some [("size", PyVal.int 1),
        ("extra", PyVal.int 7)])
      = analyze_code_metrics (some [("unrelated", PyVal.str "x"),
        ("size", PyVal.int 1)]))
    ∧ ∀ s, analyze_code_metrics (some [("size", PyVal.int 1),
          ("extra", PyVal.int 7)])
        = Except.ok (MetricsResult.summary s)
      → s.main_language
            = getD [("size", PyVal.int 1), ("extra", PyVal.int 7)]
              "language" (PyVal.str "Unknown")
        ∧ s.forks = getD [("size", PyVal.int 1), ("extra", PyVal.int 7)]
              "forks_count" (PyVal.int 0)
        ∧ asInt (getD [("size", PyVal.int 1), ("extra", PyVal.int 7)]
              "size" (PyVal.int 0)) = Except.ok s.repository_size_kb
        ∧ asInt (getD [("size", PyVal.int 1), ("extra", PyVal.int 7)]
              "stargazers_count" (PyVal.int 0)) = Except.ok s.stars
        ∧ asInt (getD [("size", PyVal.int 1), ("extra", PyVal.int 7)]
              "open_issues_count" (PyVal.int 0))
            = Except.ok s.open_issues :=
  c7_reads_only_consumed_keys [("size", PyVal.int 1), ("extra", PyVal.int 7)]
    [("unrelated", PyVal.str "x"), ("size", PyVal.int 1)]
    (by decide) (by decide) (by decide)

/-- C8: analyze_code_metrics is total on structurally valid inputs: for
None and for every well-formed descriptor, including those with missing
keys, it returns a value normally (no exception path is taken). -/
theorem c8_total_on_wellformed (repo_data : Option RepoDict)
    (h : ∀ d, repo_data = some d → WellFormed d) :
    ∃ r, analyze_code_metrics repo_data = Except.ok r := by
  cases repo_data with
  | none => exact ⟨_, rfl⟩
  | some d =>
    cases d with
    | nil => exact ⟨_, rfl⟩
    | cons p rest =>
      obtain ⟨-, h2, h3, -, h5⟩ := h _ rfl
      obtain ⟨a, ha⟩ := asInt_getD_of_optInt _ _ h2
      obtain ⟨b, hb⟩ := asInt_getD_of_optInt _ _ h3
      obtain ⟨c, hc⟩ := asInt_getD_of_optInt _ _ h5
      exact ⟨_, analyzeCore_ok _ a b c ha hb hc⟩

/-- Witness for C8 at a concrete well-formed descriptor that is missing
every numeric key. -/
theorem c8_total_on_wellformed_witness :
    ∃ r, analyze_code_metrics (some [("language", PyVal.str "Python")])
      = Except.ok r :=
  c8_total_on_wellformed (some [("language", PyVal.str "Python")])
    (fun d hd => by
      cases Option.some.inj hd
      exact ⟨rfl, rfl, rfl, rfl, rfl⟩)

/-- C9: analyze_code_metrics is deterministic: equal descriptors always
produce equal results; it is embedded as a pure function of its input, so
two invocations on the same descriptor agree and nothing else changes. -/
theorem c9_deterministic (rd1 rd2 : Option RepoDict) (h : rd1 = rd2) :
    analyze_code_metrics rd1 = analyze_code_metrics rd2 := by
  rw [h]

/-- Witness for C9 at the spec's example descriptor. -/
theorem c9_deterministic_witness :
    analyze_code_metrics (some exampleDescriptor)
      = analyze_code_metrics (some exampleDescriptor) :=
  c9_deterministic (some exampleDescriptor) (some exampleDescriptor) rfl

/-- C10: on every non-empty descriptor whose size, stargazers_count and
open_issues_count are integers, even negative ones, the function still
returns a summary, and a negative size gives project_size Small, a
negative star count gives popularity_level Low, and a negative issue
count gives activity_level Low. -/
theorem c10_negative_fields (d : RepoDict) (hd : d ≠ [])
    (hsz : ∃ n : Int, lookup d "size" = some (PyVal.int n))
    (hst : ∃ n : Int, lookup d "stargazers_count" = some (PyVal.int n))
    (hoi : ∃ n : Int, lookup d "open_issues_count" = some (PyVal.int n)) :
    ∃ s, analyze_code_metrics (some d)
        = Except.ok (MetricsResult.summary s)
      ∧ (s.repository_size_kb < 0 → s.project_size = "Small")
      ∧ (s.stars < 0 → s.popularity_level = "Low")
      ∧ (s.open_issues < 0 → s.activity_level = "Low") := by
  obtain ⟨a, ha⟩ := hsz
  obtain ⟨b, hb⟩ := hst
  obtain ⟨c, hc⟩ := hoi
  have ha' : asInt (getD d "size" (PyVal.int 0)) = Except.ok a := by
    unfold getD; rw [ha]; rfl
  have hb' : asInt (getD d "stargazers_count" (PyVal.int 0))
      = Except.ok b := by
    unfold getD; rw [hb]; rfl
  have hc' : asInt (getD d "open_issues_count" (PyVal.int 0))
      = Except.ok c := by
    unfold getD; rw [hc]; rfl
  refine ⟨buildSummary (getD d "language" (PyVal.str "Unknown")) a b
      (getD d "forks_count" (PyVal.int 0)) c,
    by rw [analyze_ne_nil d hd]; exact analyzeCore_ok d a b c ha' hb' hc',
    ?_, ?_, ?_⟩ <;> simp only [buildSummary] <;> intro hneg
  · rw [classifySize_small]; omega
  · rw [classifyPopularity_low]; omega
  · rw [classifyActivity_low]; omega

/-- Witness for C10 at a concrete descriptor with all three numeric
fields negative. -/
theorem c10_negative_fields_witness :
    ∃ s, analyze_code_metrics (some [("size", PyVal.int (-5)),
        ("stargazers_count", PyVal.int (-3)),
        ("open_issues_count", PyVal.int (-2))])
        = Except.ok (MetricsResult.summary s)
      ∧ (s.repository_size_kb < 0 → s.project_size = "Small")
      ∧ (s.stars < 0 → s.popularity_level = "Low")
      ∧ (s.open_issues < 0 → s.activity_level = "Low") :=
  c10_negative_fields [("size", PyVal.int (-5)),
      ("stargazers_count", PyVal.int (-3)),
      ("open_issues_count", PyVal.int (-2))]
    (by decide) ⟨-5, by decide⟩ ⟨-3, by decide⟩ ⟨-2, by decide⟩

end CodeMetrics
